import Mathlib

/-
Verification of the `net` HTTP-client wrapper (src/http_client.hpp).

The wrapper configures a libcurl easy handle via `curl_easy_setopt` and runs
one blocking exchange per verb call.  The embedding models:

  * the easy-handle option state (`CurlEasy`) together with libcurl's
    documented semantics for exactly the options the wrapper touches
    (CURLOPT_URL, CURLOPT_TIMEOUT_MS, CURLOPT_FOLLOWLOCATION,
    CURLOPT_USERAGENT, CURLOPT_ERRORBUFFER, the two data callbacks,
    CURLOPT_HTTPGET, CURLOPT_POST, CURLOPT_CUSTOMREQUEST,
    CURLOPT_POSTFIELDS, CURLOPT_POSTFIELDSIZE, CURLOPT_HTTPHEADER);
  * the wrapper state (`HttpRequest`): the owned header list, the shadow
    strings `url_`, `user_agent_`, `body_`, the accumulated response and the
    error buffer;
  * one network exchange (`curl_easy_perform`) as a function of an
    `EngineOutcome`: the return code, what the engine writes into the
    registered error buffer, the chunks it feeds to the two callbacks, and
    the response code reported by `curl_easy_getinfo`.  The generic
    `curl_easy_strerror` mapping is passed in as a function parameter.

The wire-level request libcurl issues for a given option state is captured by
`CurlEasy.outgoing`: per libcurl's documentation, CURLOPT_CUSTOMREQUEST
replaces only the method string of the request line and does not change
behaviour, while a request body is attached exactly when the handle's
internal method is POST (as set by CURLOPT_POST / CURLOPT_POSTFIELDS and
reset by CURLOPT_HTTPGET).
-/

namespace Net

/-- The transfer engine's internal effective method (libcurl's
`data->set.method` as far as this wrapper can influence it): `GET` after
CURLOPT_HTTPGET, `POST` after CURLOPT_POST or CURLOPT_POSTFIELDS. -/
inductive HttpReq where
  | GET
  | POST
deriving DecidableEq, Repr

/-- Option state of one curl easy handle, restricted to the options
`http_client.hpp` sets.  Field defaults are the fresh-handle defaults of
`curl_easy_init`. -/
structure CurlEasy where
  url : Option String := none
  timeout_ms : Int := 0
  followlocation : Bool := false
  useragent : Option String := none
  /-- whether CURLOPT_ERRORBUFFER has been registered -/
  errorbuffer : Bool := false
  /-- whether CURLOPT_WRITEFUNCTION has been registered -/
  writefunction : Bool := false
  /-- whether CURLOPT_WRITEDATA points at the owning instance -/
  writedata : Bool := false
  /-- whether CURLOPT_HEADERFUNCTION has been registered -/
  headerfunction : Bool := false
  /-- whether CURLOPT_HEADERDATA points at the owning instance -/
  headerdata : Bool := false
  method : HttpReq := .GET
  customrequest : Option String := none
  postfields : Option String := none
  /-- CURLOPT_POSTFIELDSIZE; libcurl's default is -1 (use strlen) -/
  postfieldsize : Int := -1
  /-- the header list last attached via CURLOPT_HTTPHEADER -/
  httpheader : Option (List String) := none
deriving DecidableEq, Repr

/-- curl_easy_setopt(CURLOPT_URL, s): libcurl copies the string. -/
def setoptURL (e : CurlEasy) (s : String) : CurlEasy :=
  { e with url := some s }

/-- curl_easy_setopt(CURLOPT_TIMEOUT_MS, ms). -/
def setoptTIMEOUT_MS (e : CurlEasy) (ms : Int) : CurlEasy :=
  { e with timeout_ms := ms }

/-- curl_easy_setopt(CURLOPT_FOLLOWLOCATION, b). -/
def setoptFOLLOWLOCATION (e : CurlEasy) (b : Bool) : CurlEasy :=
  { e with followlocation := b }

/-- curl_easy_setopt(CURLOPT_USERAGENT, s). -/
def setoptUSERAGENT (e : CurlEasy) (s : String) : CurlEasy :=
  { e with useragent := some s }

/-- curl_easy_setopt(CURLOPT_HTTPGET, 1L): forces the request back to the
GET method. -/
def setoptHTTPGET (e : CurlEasy) : CurlEasy :=
  { e with method := .GET }

/-- curl_easy_setopt(CURLOPT_POST, 1L): selects the POST method. -/
def setoptPOST (e : CurlEasy) : CurlEasy :=
  { e with method := .POST }

/-- curl_easy_setopt(CURLOPT_CUSTOMREQUEST, s): replaces the method string
used in the request line; per the libcurl documentation it changes only that
string, not the request behaviour, and it stays set until replaced. -/
def setoptCUSTOMREQUEST (e : CurlEasy) (s : String) : CurlEasy :=
  { e with customrequest := some s }

/-- curl_easy_setopt(CURLOPT_POSTFIELDS, b): stores the body bytes and, per
the libcurl implementation and documentation, also switches the handle to
the POST method. -/
def setoptPOSTFIELDS (e : CurlEasy) (b : String) : CurlEasy :=
  { e with postfields := some b, method := .POST }

/-- curl_easy_setopt(CURLOPT_POSTFIELDSIZE, n). -/
def setoptPOSTFIELDSIZE (e : CurlEasy) (n : Int) : CurlEasy :=
  { e with postfieldsize := n }

/-- curl_easy_setopt(CURLOPT_HTTPHEADER, list). -/
def setoptHTTPHEADER (e : CurlEasy) (hs : List String) : CurlEasy :=
  { e with httpheader := some hs }

/-- HttpResponse of src/http_client.hpp: status code (0 until a response is
received), body bytes, raw header lines as received. -/
structure HttpResponse where
  status : Int := 0
  body : String := ""
  headers : List String := []
deriving DecidableEq, Repr

/-- State of one `net::HttpRequest` instance: the easy handle it owns, the
owned `curl_slist` contents (`headers_`), the shadow strings `url_`,
`user_agent_`, `body_`, the accumulated response and the error buffer. -/
structure HttpRequest where
  easy : CurlEasy := {}
  headers_ : List String := []
  url_ : String := ""
  user_agent_ : String := ""
  body_ : String := ""
  response_ : HttpResponse := {}
  errbuf_ : String := ""
deriving DecidableEq, Repr

namespace HttpRequest

/-- HttpRequest::set_url: stores the string and points CURLOPT_URL at it. -/
def set_url (r : HttpRequest) (url : String) : HttpRequest :=
  let r := { r with url_ := url }
  { r with easy := setoptURL r.easy r.url_ }

/-- HttpRequest::set_timeout_ms: sets CURLOPT_TIMEOUT_MS (0 = no timeout). -/
def set_timeout_ms (r : HttpRequest) (ms : Int) : HttpRequest :=
  { r with easy := setoptTIMEOUT_MS r.easy ms }

/-- HttpRequest::set_follow_redirects: sets CURLOPT_FOLLOWLOCATION. -/
def set_follow_redirects (r : HttpRequest) (yes : Bool) : HttpRequest :=
  { r with easy := setoptFOLLOWLOCATION r.easy yes }

/-- HttpRequest::set_user_agent: stores the string and sets
CURLOPT_USERAGENT. -/
def set_user_agent (r : HttpRequest) (ua : String) : HttpRequest :=
  let r := { r with user_agent_ := ua }
  { r with easy := setoptUSERAGENT r.easy r.user_agent_ }

/-- HttpRequest::add_header: appends one raw header line to the owned
`curl_slist` (curl_slist_append appends at the tail). -/
def add_header (r : HttpRequest) (h : String) : HttpRequest :=
  { r with headers_ := r.headers_ ++ [h] }

/-- HttpRequest::set_body: stores the body bytes; if the content type is
non-empty, additionally appends a Content-Type header line. -/
def set_body (r : HttpRequest) (body : String) (content_type : String := "") :
    HttpRequest :=
  let r := { r with body_ := body }
  if content_type = "" then r else r.add_header ("Content-Type: " ++ content_type)

/-- HttpRequest::HttpRequest: `initOk` tells whether `curl_easy_init`
produced a handle.  On success installs the defaults (follow redirects, no
timeout, the default user agent) through the wrapper's own setters and
registers the error buffer and the two data-sink callbacks. -/
def construct (initOk : Bool) : Except String HttpRequest :=
  if initOk then
    let r : HttpRequest := {}
    let r := r.set_follow_redirects true
    let r := r.set_timeout_ms 0
    let r := r.set_user_agent "net::HttpRequest/1.0"
    .ok { r with easy :=
      { r.easy with
          errorbuffer := true
          writefunction := true
          writedata := true
          headerfunction := true
          headerdata := true } }
  else
    .error "curl_easy_init failed"

/-- HttpRequest::write_body_cb: appends a delivered chunk of body bytes to
the response body and reports the number of bytes consumed. -/
def write_body_cb (self : HttpRequest) (chunk : String) : HttpRequest × Nat :=
  ({ self with response_ :=
      { self.response_ with body := self.response_.body ++ chunk } },
   chunk.utf8ByteSize)

/-- HttpRequest::write_header_cb: appends a delivered raw header line (as
received) to the response header sequence and reports the bytes consumed. -/
def write_header_cb (self : HttpRequest) (line : String) : HttpRequest × Nat :=
  ({ self with response_ :=
      { self.response_ with headers := self.response_.headers ++ [line] } },
   line.utf8ByteSize)

/-- HttpRequest::reset_buffers: clears status, body and header accumulation
and empties the error buffer. -/
def reset_buffers (r : HttpRequest) : HttpRequest :=
  { r with response_ := {}, errbuf_ := "" }

end HttpRequest

/-- One exchange as observed through the engine boundary: the CURLcode
returned by `curl_easy_perform` (0 = CURLE_OK), what the engine writes into
the registered error buffer during the transfer (`none` = leaves it
untouched), the chunks delivered to the body and header callbacks, and the
response code later reported by CURLINFO_RESPONSE_CODE. -/
structure EngineOutcome where
  rc : Nat
  errbufWrite : Option String := none
  bodyChunks : List String := []
  headerChunks : List String := []
  status : Int := 0
deriving DecidableEq, Repr

namespace HttpRequest

/-- The engine drives the two registered callbacks with its chunks and
writes the error buffer (or leaves it alone), as `curl_easy_perform` does. -/
def deliver (r : HttpRequest) (eng : EngineOutcome) : HttpRequest :=
  let r := eng.bodyChunks.foldl (fun s c => (s.write_body_cb c).1) r
  let r := eng.headerChunks.foldl (fun s c => (s.write_header_cb c).1) r
  { r with errbuf_ := eng.errbufWrite.getD r.errbuf_ }

/-- HttpRequest::perform, with `strerror` standing for
`curl_easy_strerror`: attaches the owned header list if non-empty, runs the
exchange, and either throws (non-CURLE_OK, preferring the error buffer over
the generic mapping when the buffer is non-empty) or reads the response code
and returns the response by value. -/
def perform (r : HttpRequest) (strerror : Nat → String) (eng : EngineOutcome) :
    Except String HttpResponse × HttpRequest :=
  let r := if r.headers_ ≠ [] then
      { r with easy := setoptHTTPHEADER r.easy r.headers_ } else r
  let r := r.deliver eng
  if eng.rc ≠ 0 then
    (.error ("curl_easy_perform: " ++
        (if r.errbuf_ ≠ "" then r.errbuf_ else strerror eng.rc)), r)
  else
    let r := { r with response_ := { r.response_ with status := eng.status } }
    (.ok r.response_, r)

/-- HttpRequest::get: reset buffers, CURLOPT_HTTPGET, perform. -/
def get (r : HttpRequest) (strerror : Nat → String) (eng : EngineOutcome) :
    Except String HttpResponse × HttpRequest :=
  let r := r.reset_buffers
  let r := { r with easy := setoptHTTPGET r.easy }
  r.perform strerror eng

/-- HttpRequest::del: reset buffers, CURLOPT_CUSTOMREQUEST "DELETE",
perform. -/
def del (r : HttpRequest) (strerror : Nat → String) (eng : EngineOutcome) :
    Except String HttpResponse × HttpRequest :=
  let r := r.reset_buffers
  let r := { r with easy := setoptCUSTOMREQUEST r.easy "DELETE" }
  r.perform strerror eng

/-- HttpRequest::post: reset buffers, CURLOPT_POST, CURLOPT_POSTFIELDS from
the configured body, CURLOPT_POSTFIELDSIZE from its byte size, perform. -/
def post (r : HttpRequest) (strerror : Nat → String) (eng : EngineOutcome) :
    Except String HttpResponse × HttpRequest :=
  let r := r.reset_buffers
  let r := { r with easy := setoptPOST r.easy }
  let r := { r with easy := setoptPOSTFIELDS r.easy r.body_ }
  let r := { r with easy := setoptPOSTFIELDSIZE r.easy r.body_.utf8ByteSize }
  r.perform strerror eng

/-- HttpRequest::put: reset buffers, CURLOPT_CUSTOMREQUEST "PUT",
CURLOPT_POSTFIELDS from the configured body, CURLOPT_POSTFIELDSIZE from its
byte size, perform. -/
def put (r : HttpRequest) (strerror : Nat → String) (eng : EngineOutcome) :
    Except String HttpResponse × HttpRequest :=
  let r := r.reset_buffers
  let r := { r with easy := setoptCUSTOMREQUEST r.easy "PUT" }
  let r := { r with easy := setoptPOSTFIELDS r.easy r.body_ }
  let r := { r with easy := setoptPOSTFIELDSIZE r.easy r.body_.utf8ByteSize }
  r.perform strerror eng

end HttpRequest

/-- The wire-level request libcurl issues for a handle whose option state is
given: the URL, the method string of the request line (the custom request
string when set, else the internal method's name), the attached payload
(present exactly when the internal method is POST and postfields are set,
carrying the declared byte length), the attached header lines, and the
remaining transfer options. -/
structure OutgoingRequest where
  url : Option String
  method : String
  payload : Option (String × Int)
  headers : List String
  useragent : Option String
  timeout_ms : Int
  followlocation : Bool
deriving DecidableEq, Repr

/-- What the engine sends for option state `e` (libcurl's documented
behaviour for the options this wrapper uses). -/
def CurlEasy.outgoing (e : CurlEasy) : OutgoingRequest :=
  { url := e.url
    method := e.customrequest.getD
      (match e.method with | .GET => "GET" | .POST => "POST")
    payload := if e.method = .POST then
        e.postfields.map (fun b => (b, e.postfieldsize)) else none
    headers := e.httpheader.getD []
    useragent := e.useragent
    timeout_ms := e.timeout_ms
    followlocation := e.followlocation }

/-- A freshly constructed handle (the successful branch of the
constructor). -/
def freshHandle : HttpRequest :=
  match HttpRequest.construct true with
  | .ok r => r
  | .error _ => {}

/-- A benign engine outcome used for concrete runs: CURLE_OK, status 200,
nothing delivered. -/
def engOk : EngineOutcome :=
  { rc := 0, status := 200 }

/-- A concrete stand-in for curl_easy_strerror in concrete runs. -/
def strerrorStub : Nat → String :=
  fun n => "curl error " ++ toString n

/-- The part of the handle state that only the configuration surface
writes (no verb's own setup does): the shadow strings `url_`,
`user_agent_`, `body_`, the owned header list, and the URL, timeout,
redirect-following and user-agent options of the easy handle. -/
def HttpRequest.config (r : HttpRequest) :
    String × String × String × List String ×
      Option String × Int × Bool × Option String :=
  (r.url_, r.user_agent_, r.body_, r.headers_, r.easy.url, r.easy.timeout_ms,
   r.easy.followlocation, r.easy.useragent)

/-- An engine outcome that fails with CURLcode 7 and writes a
connection-specific diagnostic into the registered error buffer. -/
def engFail : EngineOutcome :=
  { rc := 7, errbufWrite := some "boom" }

/-- A handle that ran one successful del(), so its custom-method option
holds "DELETE". -/
def delThenHandle : HttpRequest :=
  ((freshHandle.set_url "http://h/").del strerrorStub engOk).2

/-- Concatenation of the chunks one exchange feeds to the body callback. -/
def concatChunks : List String → String
  | [] => ""
  | c :: cs => c ++ concatChunks cs

namespace HttpRequest

lemma foldl_write_body (cs : List String) (r : HttpRequest) :
    cs.foldl (fun s c => (s.write_body_cb c).1) r =
      { r with response_ := { r.response_ with
          body := r.response_.body ++ concatChunks cs } } := by
  induction cs generalizing r with
  | nil => simp [concatChunks]
  | cons c cs ih =>
      rw [List.foldl_cons, ih]
      simp [write_body_cb, concatChunks, String.append_assoc]

lemma foldl_write_header (cs : List String) (r : HttpRequest) :
    cs.foldl (fun s c => (s.write_header_cb c).1) r =
      { r with response_ := { r.response_ with
          headers := r.response_.headers ++ cs } } := by
  induction cs generalizing r with
  | nil => simp
  | cons c cs ih =>
      rw [List.foldl_cons, ih]
      simp [write_header_cb]

lemma deliver_eq (r : HttpRequest) (eng : EngineOutcome) :
    r.deliver eng =
      { r with
          response_ := { r.response_ with
            body := r.response_.body ++ concatChunks eng.bodyChunks
            headers := r.response_.headers ++ eng.headerChunks }
          errbuf_ := eng.errbufWrite.getD r.errbuf_ } := by
  simp [deliver, foldl_write_body, foldl_write_header]

lemma perform_fst (s : HttpRequest) (f : Nat → String) (eng : EngineOutcome) :
    (s.perform f eng).1 =
      (if eng.rc ≠ 0 then
        Except.error ("curl_easy_perform: " ++
          (if eng.errbufWrite.getD s.errbuf_ ≠ "" then eng.errbufWrite.getD s.errbuf_
           else f eng.rc))
      else
        Except.ok { status := eng.status
                    body := s.response_.body ++ concatChunks eng.bodyChunks
                    headers := s.response_.headers ++ eng.headerChunks }) := by
  by_cases h : s.headers_ = [] <;>
    by_cases h2 : eng.rc = 0 <;>
      simp [perform, deliver_eq, h, h2]

lemma perform_easy (s : HttpRequest) (f : Nat → String) (eng : EngineOutcome) :
    (s.perform f eng).2.easy =
      (if s.headers_ ≠ [] then setoptHTTPHEADER s.easy s.headers_ else s.easy) := by
  by_cases h : s.headers_ = [] <;>
    by_cases h2 : eng.rc = 0 <;>
      simp [perform, deliver_eq, h, h2]

lemma perform_snd_url (s : HttpRequest) (f : Nat → String) (eng : EngineOutcome) :
    (s.perform f eng).2.url_ = s.url_ := by
  by_cases h : s.headers_ = [] <;>
    by_cases h2 : eng.rc = 0 <;>
      simp [perform, deliver_eq, h, h2]

lemma perform_snd_ua (s : HttpRequest) (f : Nat → String) (eng : EngineOutcome) :
    (s.perform f eng).2.user_agent_ = s.user_agent_ := by
  by_cases h : s.headers_ = [] <;>
    by_cases h2 : eng.rc = 0 <;>
      simp [perform, deliver_eq, h, h2]

lemma perform_snd_body (s : HttpRequest) (f : Nat → String) (eng : EngineOutcome) :
    (s.perform f eng).2.body_ = s.body_ := by
  by_cases h : s.headers_ = [] <;>
    by_cases h2 : eng.rc = 0 <;>
      simp [perform, deliver_eq, h, h2]

lemma perform_snd_headers (s : HttpRequest) (f : Nat → String) (eng : EngineOutcome) :
    (s.perform f eng).2.headers_ = s.headers_ := by
  by_cases h : s.headers_ = [] <;>
    by_cases h2 : eng.rc = 0 <;>
      simp [perform, deliver_eq, h, h2]

end HttpRequest

/-- Attaching (or not attaching) a header list changes only the httpheader
option of the easy handle. -/
lemma ite_attach_frame (c : Prop) [Decidable c] (e : CurlEasy) (hs : List String) :
    (if c then setoptHTTPHEADER e hs else e) =
      { e with httpheader := if c then some hs else e.httpheader } := by
  by_cases h : c <;> simp [setoptHTTPHEADER, h]

/-- Variant of `ite_attach_frame` with the branches swapped, as produced
when the condition is a negation. -/
lemma ite_attach_frame' (c : Prop) [Decidable c] (e : CurlEasy) (hs : List String) :
    (if c then e else setoptHTTPHEADER e hs) =
      { e with httpheader := if c then e.httpheader else some hs } := by
  by_cases h : c <;> simp [setoptHTTPHEADER, h]

/-- C7: constructing a request handle installs the default configuration —
automatic redirect following on, timeout 0 meaning unlimited, the default
user agent "net::HttpRequest/1.0" — and registers the error buffer and the
two data-sink callbacks (body and header accumulators) bound to the new
instance; construction fails with an initialization error when the
underlying library cannot produce a handle. -/
theorem construct_installs_defaults :
    HttpRequest.construct false = Except.error "curl_easy_init failed" ∧
    HttpRequest.construct true = Except.ok freshHandle ∧
    freshHandle.easy.followlocation = true ∧
    freshHandle.easy.timeout_ms = 0 ∧
    freshHandle.easy.useragent = some "net::HttpRequest/1.0" ∧
    freshHandle.user_agent_ = "net::HttpRequest/1.0" ∧
    freshHandle.easy.errorbuffer = true ∧
    freshHandle.easy.writefunction = true ∧
    freshHandle.easy.writedata = true ∧
    freshHandle.easy.headerfunction = true ∧
    freshHandle.easy.headerdata = true :=
  ⟨rfl, rfl, rfl, rfl, rfl, rfl, rfl, rfl, rfl, rfl, rfl⟩

/-- C4: calling set_body with a non-empty content type appends exactly one
additional header line "Content-Type: value" after all previously added
header lines; with an empty content type it appends no header line. -/
theorem set_body_content_type_header (r : HttpRequest) (b ct : String) :
    (r.set_body b ct).headers_ =
      r.headers_ ++ (if ct = "" then [] else ["Content-Type: " ++ ct]) := by
  by_cases h : ct = "" <;>
    simp [HttpRequest.set_body, HttpRequest.add_header, h]

/-- C2: every verb invocation clears the accumulated response status, body
and header lines and the error buffer before performing the exchange: both
the returned result and the resulting handle state are independent of
whatever response and diagnostic the handle held when the call began, so
nothing from a previous exchange appears in the next one. -/
theorem verbs_clear_prior_response (r : HttpRequest) (resp : HttpResponse)
    (eb : String) (f : Nat → String) (eng : EngineOutcome) :
    ({ r with response_ := resp, errbuf_ := eb } : HttpRequest).get f eng
        = r.get f eng ∧
    ({ r with response_ := resp, errbuf_ := eb } : HttpRequest).del f eng
        = r.del f eng ∧
    ({ r with response_ := resp, errbuf_ := eb } : HttpRequest).post f eng
        = r.post f eng ∧
    ({ r with response_ := resp, errbuf_ := eb } : HttpRequest).put f eng
        = r.put f eng :=
  ⟨rfl, rfl, rfl, rfl⟩

/-- C9: verb-selection state persists across verb invocations: after del()
or put() has installed its custom method string, a later get() sets only the
HTTP-GET option and leaves the custom string in place, so the later
exchange still carries that method string on its request line. -/
theorem custom_method_persists_across_get (r : HttpRequest) (f g : Nat → String)
    (e1 e2 : EngineOutcome) :
    ((r.del f e1).2.get g e2).2.easy.customrequest = some "DELETE" ∧
    ((r.del f e1).2.get g e2).2.easy.outgoing.method = "DELETE" ∧
    ((r.put f e1).2.get g e2).2.easy.customrequest = some "PUT" ∧
    ((r.put f e1).2.get g e2).2.easy.outgoing.method = "PUT" := by
  refine ⟨?_, ?_, ?_, ?_⟩ <;>
    simp [HttpRequest.get, HttpRequest.del, HttpRequest.put,
      HttpRequest.reset_buffers, HttpRequest.perform_easy,
      HttpRequest.perform_snd_headers, ite_attach_frame, ite_attach_frame',
      setoptHTTPGET, setoptCUSTOMREQUEST, setoptPOSTFIELDS,
      setoptPOSTFIELDSIZE, CurlEasy.outgoing]

/-- C5: every verb invocation either raises a transfer error — exactly when
the engine reports a non-success code, surfaced synchronously with nothing
swallowed — or returns a response record carrying the final status code
read from the engine together with the bytes this exchange delivered; a
failed exchange never produces a successful return. -/
theorem verb_raises_iff_engine_fails (r : HttpRequest) (f : Nat → String)
    (eng : EngineOutcome) :
    (r.get f eng).1 =
      (if eng.rc ≠ 0 then
        Except.error ("curl_easy_perform: " ++
          (if eng.errbufWrite.getD "" ≠ "" then eng.errbufWrite.getD ""
           else f eng.rc))
      else
        Except.ok { status := eng.status, body := concatChunks eng.bodyChunks,
                    headers := eng.headerChunks }) ∧
    (r.del f eng).1 =
      (if eng.rc ≠ 0 then
        Except.error ("curl_easy_perform: " ++
          (if eng.errbufWrite.getD "" ≠ "" then eng.errbufWrite.getD ""
           else f eng.rc))
      else
        Except.ok { status := eng.status, body := concatChunks eng.bodyChunks,
                    headers := eng.headerChunks }) ∧
    (r.post f eng).1 =
      (if eng.rc ≠ 0 then
        Except.error ("curl_easy_perform: " ++
          (if eng.errbufWrite.getD "" ≠ "" then eng.errbufWrite.getD ""
           else f eng.rc))
      else
        Except.ok { status := eng.status, body := concatChunks eng.bodyChunks,
                    headers := eng.headerChunks }) ∧
    (r.put f eng).1 =
      (if eng.rc ≠ 0 then
        Except.error ("curl_easy_perform: " ++
          (if eng.errbufWrite.getD "" ≠ "" then eng.errbufWrite.getD ""
           else f eng.rc))
      else
        Except.ok { status := eng.status, body := concatChunks eng.bodyChunks,
                    headers := eng.headerChunks }) := by
  refine ⟨?_, ?_, ?_, ?_⟩ <;>
    simp [HttpRequest.get, HttpRequest.del, HttpRequest.post, HttpRequest.put,
      HttpRequest.reset_buffers, HttpRequest.perform_fst, String.empty_append]

/-- C6: when a verb invocation fails, the raised transfer error carries the
library-maintained error buffer whenever the engine left it non-empty, and
falls back to the generic error-code-to-string mapping only when the buffer
is empty. -/
theorem failure_diagnostic_prefers_errbuf (r : HttpRequest) (f : Nat → String)
    (eng : EngineOutcome) (h : eng.rc ≠ 0) :
    (r.get f eng).1 = Except.error ("curl_easy_perform: " ++
      (if eng.errbufWrite.getD "" ≠ "" then eng.errbufWrite.getD ""
       else f eng.rc)) ∧
    (r.del f eng).1 = Except.error ("curl_easy_perform: " ++
      (if eng.errbufWrite.getD "" ≠ "" then eng.errbufWrite.getD ""
       else f eng.rc)) ∧
    (r.post f eng).1 = Except.error ("curl_easy_perform: " ++
      (if eng.errbufWrite.getD "" ≠ "" then eng.errbufWrite.getD ""
       else f eng.rc)) ∧
    (r.put f eng).1 = Except.error ("curl_easy_perform: " ++
      (if eng.errbufWrite.getD "" ≠ "" then eng.errbufWrite.getD ""
       else f eng.rc)) := by
  refine ⟨?_, ?_, ?_, ?_⟩ <;>
    simp [HttpRequest.get, HttpRequest.del, HttpRequest.post, HttpRequest.put,
      HttpRequest.reset_buffers, HttpRequest.perform_fst, h]

/-- Witness for C6 at a concrete failing outcome whose buffer is
non-empty: the raised error carries the buffer contents. -/
theorem failure_diagnostic_prefers_errbuf_witness :
    engFail.rc ≠ 0 ∧
    (freshHandle.get strerrorStub engFail).1 =
      Except.error ("curl_easy_perform: " ++
        (if engFail.errbufWrite.getD "" ≠ "" then engFail.errbufWrite.getD ""
         else strerrorStub engFail.rc)) :=
  ⟨by decide,
   (failure_diagnostic_prefers_errbuf freshHandle strerrorStub engFail
      (by decide)).1⟩

/-- C1 (amended): get() never sends a request body, whatever verbs ran
earlier, because CURLOPT_HTTPGET reinstates the GET method; post() and put()
always send the currently configured body with its byte length; del() sends
no body provided the handle's engine-method state is still GET — that is,
provided no post() or put() ran earlier on the handle without a later get()
— since CURLOPT_CUSTOMREQUEST only replaces the method string and does not
reset the POST method state. -/
theorem verb_body_policy (r : HttpRequest) (f : Nat → String)
    (eng : EngineOutcome) :
    (r.get f eng).2.easy.outgoing.payload = none ∧
    (r.easy.method = HttpReq.GET →
      (r.del f eng).2.easy.outgoing.payload = none) ∧
    (r.post f eng).2.easy.outgoing.payload
      = some (r.body_, (r.body_.utf8ByteSize : Int)) ∧
    (r.put f eng).2.easy.outgoing.payload
      = some (r.body_, (r.body_.utf8ByteSize : Int)) := by
  refine ⟨?_, fun h => ?_, ?_, ?_⟩
  · simp [HttpRequest.get, HttpRequest.reset_buffers, HttpRequest.perform_easy,
      ite_attach_frame, ite_attach_frame', setoptHTTPGET, CurlEasy.outgoing]
  · simp [HttpRequest.del, HttpRequest.reset_buffers, HttpRequest.perform_easy,
      ite_attach_frame, ite_attach_frame', setoptCUSTOMREQUEST,
      CurlEasy.outgoing, h]
  · simp [HttpRequest.post, HttpRequest.reset_buffers, HttpRequest.perform_easy,
      ite_attach_frame, ite_attach_frame', setoptPOST, setoptPOSTFIELDS,
      setoptPOSTFIELDSIZE, CurlEasy.outgoing]
  · simp [HttpRequest.put, HttpRequest.reset_buffers, HttpRequest.perform_easy,
      ite_attach_frame, ite_attach_frame', setoptCUSTOMREQUEST,
      setoptPOSTFIELDS, setoptPOSTFIELDSIZE, CurlEasy.outgoing]

/-- Witness for C1 (amended): on a freshly constructed handle the method
state is GET and del() sends no body. -/
theorem verb_body_policy_witness :
    freshHandle.easy.method = HttpReq.GET ∧
    (freshHandle.del strerrorStub engOk).2.easy.outgoing.payload = none :=
  ⟨by decide,
   (verb_body_policy freshHandle strerrorStub engOk).2.1 (by decide)⟩

/-- C1 counterexample: on a handle where post() ran earlier, del() does send
the configured body — after set_body "x" and post(), the del() exchange
goes out with payload ("x", 1), contradicting the claim that del() sends no
body regardless of which verb methods were invoked earlier. -/
theorem del_after_post_sends_body_counterexample :
    ((((freshHandle.set_body "x" "").post strerrorStub engOk).2.del
        strerrorStub engOk).2).easy.outgoing.payload = some ("x", 1) := by
  decide

/-- C8: each set_body call with a non-empty content type appends a new
Content-Type line without removing or replacing the one added earlier; two
such calls leave both entries, in call order, and both are attached to the
outgoing request of a subsequent verb call. -/
theorem set_body_twice_two_content_types (r : HttpRequest)
    (b1 t1 b2 t2 : String) (f : Nat → String) (eng : EngineOutcome)
    (h1 : t1 ≠ "") (h2 : t2 ≠ "") :
    ((r.set_body b1 t1).set_body b2 t2).headers_ =
      r.headers_ ++ ["Content-Type: " ++ t1, "Content-Type: " ++ t2] ∧
    (((r.set_body b1 t1).set_body b2 t2).post f eng).2.easy.outgoing.headers =
      r.headers_ ++ ["Content-Type: " ++ t1, "Content-Type: " ++ t2] := by
  refine ⟨?_, ?_⟩ <;>
    simp [HttpRequest.set_body, HttpRequest.add_header, HttpRequest.post,
      HttpRequest.reset_buffers, HttpRequest.perform_easy, ite_attach_frame,
      ite_attach_frame', setoptPOST, setoptPOSTFIELDS, setoptPOSTFIELDSIZE,
      setoptHTTPHEADER, CurlEasy.outgoing, h1, h2]

/-- Witness for C8 at concrete bodies and content types. -/
theorem set_body_twice_two_content_types_witness :
    ("a" : String) ≠ "" ∧ ("b" : String) ≠ "" ∧
    (((freshHandle.set_body "x" "a").set_body "y" "b").headers_ =
        freshHandle.headers_ ++ ["Content-Type: " ++ "a", "Content-Type: " ++ "b"] ∧
     (((freshHandle.set_body "x" "a").set_body "y" "b").post strerrorStub
          engOk).2.easy.outgoing.headers =
        freshHandle.headers_ ++ ["Content-Type: " ++ "a", "Content-Type: " ++ "b"]) :=
  ⟨by decide, by decide,
   set_body_twice_two_content_types freshHandle "x" "a" "y" "b" strerrorStub
     engOk (by decide) (by decide)⟩

/-- C3 counterexample: calling set_body twice with a non-empty content type
is not equivalent to calling it once with the second value — the handle
states differ and the following verb's outgoing request carries two
Content-Type lines instead of one. -/
theorem set_body_twice_not_equivalent_counterexample :
    (freshHandle.set_body "a" "t").set_body "b" "t"
        ≠ freshHandle.set_body "b" "t" ∧
    (((freshHandle.set_body "a" "t").set_body "b" "t").post strerrorStub
        engOk).2.easy.outgoing.headers
      = ["Content-Type: t", "Content-Type: t"] ∧
    ((freshHandle.set_body "b" "t").post strerrorStub
        engOk).2.easy.outgoing.headers
      = ["Content-Type: t"] := by
  refine ⟨by decide, by decide, by decide⟩

/-- C3 (amended): the outgoing request of the verb that follows a sequence
of configuration calls reflects the most-recently-set URL, timeout,
user-agent and body; calling set_url, set_timeout_ms or set_user_agent twice
is equivalent to calling it once with the second value, and likewise
set_body when the first call passed no content type; a set_body call with a
non-empty content type additionally appends one Content-Type header line per
call (so two such calls are not equivalent to one), and header lines added
via add_header accumulate in call order with duplicates permitted. -/
theorem last_write_wins (r : HttpRequest) (u1 u2 : String) (t1 t2 : Int)
    (a1 a2 b1 b2 ct1 ct2 hl : String) (f : Nat → String)
    (eng : EngineOutcome) :
    (r.set_url u1).set_url u2 = r.set_url u2 ∧
    (r.set_timeout_ms t1).set_timeout_ms t2 = r.set_timeout_ms t2 ∧
    (r.set_user_agent a1).set_user_agent a2 = r.set_user_agent a2 ∧
    (r.set_body b1 "").set_body b2 ct2 = r.set_body b2 ct2 ∧
    ((r.set_body b1 ct1).set_body b2 ct2).body_ = b2 ∧
    (r.add_header hl).headers_ = r.headers_ ++ [hl] ∧
    ((r.add_header hl).add_header hl).headers_ = r.headers_ ++ [hl, hl] ∧
    ((((((r.set_url u1).set_url u2).set_timeout_ms t2).set_user_agent
          a2).set_body b2 "").post f eng).2.easy.outgoing.url = some u2 ∧
    ((((((r.set_url u1).set_url u2).set_timeout_ms t2).set_user_agent
          a2).set_body b2 "").post f eng).2.easy.outgoing.timeout_ms = t2 ∧
    ((((((r.set_url u1).set_url u2).set_timeout_ms t2).set_user_agent
          a2).set_body b2 "").post f eng).2.easy.outgoing.useragent = some a2 ∧
    ((((((r.set_url u1).set_url u2).set_timeout_ms t2).set_user_agent
          a2).set_body b2 "").post f eng).2.easy.outgoing.payload
        = some (b2, (b2.utf8ByteSize : Int)) := by
  refine ⟨rfl, rfl, rfl, rfl, ?_, rfl, ?_, ?_, ?_, ?_, ?_⟩
  · by_cases hc1 : ct1 = "" <;> by_cases hc2 : ct2 = "" <;>
      simp [HttpRequest.set_body, HttpRequest.add_header, hc1, hc2]
  · simp [HttpRequest.add_header]
  all_goals
    simp [HttpRequest.set_url, HttpRequest.set_timeout_ms,
      HttpRequest.set_user_agent, HttpRequest.set_body, HttpRequest.post,
      HttpRequest.reset_buffers, HttpRequest.perform_easy, ite_attach_frame,
      ite_attach_frame', setoptURL, setoptTIMEOUT_MS, setoptUSERAGENT,
      setoptPOST, setoptPOSTFIELDS, setoptPOSTFIELDSIZE, CurlEasy.outgoing]

/-- C10 counterexample: an option set before the call does not survive a
failing verb unchanged — the custom method string "DELETE" installed by an
earlier del() is overwritten with "PUT" by a put() whose exchange fails, so
after the error the handle's option state is not exactly as it was when the
call began. -/
theorem failed_verb_changes_method_option_counterexample :
    delThenHandle.easy.customrequest = some "DELETE" ∧
    (delThenHandle.put strerrorStub engFail).1 =
      Except.error "curl_easy_perform: boom" ∧
    (delThenHandle.put strerrorStub engFail).2.easy.customrequest
      = some "PUT" := by
  refine ⟨by decide, rfl, by decide⟩

/-- C10 (amended): when a verb invocation raises a transfer error, the
handle's configuration — the URL, user-agent and body members, the owned
header list, and the URL, timeout, redirect-following and user-agent
options — is exactly as it was when the call began, and the handle remains
usable: a subsequent post() on the failed handle still sends the preserved
body.  The failing verb's own method-selection options, which it rewrites
before the exchange exactly as a successful call does, are not restored on
failure; see the counterexample. -/
theorem failed_verb_preserves_configuration (r : HttpRequest)
    (f : Nat → String) (eng eng2 : EngineOutcome) (_h : eng.rc ≠ 0) :
    (r.get f eng).2.config = r.config ∧
    (r.del f eng).2.config = r.config ∧
    (r.post f eng).2.config = r.config ∧
    (r.put f eng).2.config = r.config ∧
    ((r.get f eng).2.post f eng2).2.easy.outgoing.payload
      = some (r.body_, (r.body_.utf8ByteSize : Int)) := by
  refine ⟨?_, ?_, ?_, ?_, ?_⟩ <;>
    simp [HttpRequest.config, HttpRequest.get, HttpRequest.del,
      HttpRequest.post, HttpRequest.put, HttpRequest.reset_buffers,
      HttpRequest.perform_snd_url, HttpRequest.perform_snd_ua,
      HttpRequest.perform_snd_body, HttpRequest.perform_snd_headers,
      HttpRequest.perform_easy, ite_attach_frame, ite_attach_frame',
      setoptHTTPGET, setoptCUSTOMREQUEST, setoptPOST, setoptPOSTFIELDS,
      setoptPOSTFIELDSIZE, CurlEasy.outgoing]

/-- Witness for C10 (amended) at a concrete handle and failing outcome. -/
theorem failed_verb_preserves_configuration_witness :
    engFail.rc ≠ 0 ∧
    ((delThenHandle.get strerrorStub engFail).2.config
        = delThenHandle.config ∧
     (delThenHandle.del strerrorStub engFail).2.config
        = delThenHandle.config ∧
     (delThenHandle.post strerrorStub engFail).2.config
        = delThenHandle.config ∧
     (delThenHandle.put strerrorStub engFail).2.config
        = delThenHandle.config ∧
     ((delThenHandle.get strerrorStub engFail).2.post strerrorStub
          engOk).2.easy.outgoing.payload
        = some (delThenHandle.body_, (delThenHandle.body_.utf8ByteSize : Int))) :=
  ⟨by decide,
   failed_verb_preserves_configuration delThenHandle strerrorStub engFail
     engOk (by decide)⟩

end Net
